import Mathlib

/-!
Shallow embedding of the CGT AI chat backend (src/backend/app.py and
src/backend/models.py).

The backend persists Chat and Message rows, builds a prompt from fixed
system instructions, and answers POST /chat by calling the OpenRouter
provider, falling back to the Gemini provider, falling back to a static
unavailability string.  External provider behaviour (HTTP status, network
errors, malformed bodies, SDK responses) is modelled by an explicit
environment so that the fallback logic can be analysed for every provider
behaviour.  Python exceptions are modelled by `Except String`; the string
carries the exception message (`str(e)`).
-/

/-- The fixed SYSTEM_INSTRUCTIONS block from app.py. -/
def SYSTEM_INSTRUCTIONS : String :=
  "You are a friendly AI assistant like ChatGPT.\n" ++
  "Rules:\n" ++
  "- Give clean, well-spaced answers\n" ++
  "- Use bullet points or tables when useful\n" ++
  "- Do NOT use # symbols\n" ++
  "- Keep answers clear and readable\n" ++
  "- Be concise and helpful\n"

/-- build_prompt from app.py: the f-string
SYSTEM_INSTRUCTIONS, a blank line, a literal User: line, the message. -/
def build_prompt (user_message : String) : String :=
  SYSTEM_INSTRUCTIONS ++ "\n\nUser:\n" ++ user_message

/-- The static final-fallback reply returned when no provider produced text. -/
def UNAVAILABLE_MESSAGE : String :=
  "All AI providers are currently unavailable. Please try again later."

/-- Python truthiness of an optional string environment variable:
None and the empty string are falsy. -/
def pyTruthy : Option String → Bool
  | none => false
  | some s => !(s == "")

/-- Python str.strip(): drop leading and trailing whitespace characters. -/
def pyStrip (s : String) : String :=
  String.mk (((s.data.dropWhile Char.isWhitespace).reverse.dropWhile Char.isWhitespace).reverse)

/-- Behaviour of one element of the OpenRouter choices array when the code
reads choice.message.content and strips it: either that access yields a
string, or it raises (missing key, non-string value). -/
inductive ChoiceOutcome where
  | good (content : String)
  | badShape (err : String)
deriving DecidableEq, Repr

/-- Behaviour of response.json() on the OpenRouter HTTP response:
either parsing raises, or it yields data whose choices key is absent
(`none`) or holds a list of choice values. -/
inductive BodyOutcome where
  | jsonRaises (err : String)
  | jsonData (choices : Option (List ChoiceOutcome))
deriving DecidableEq, Repr

/-- Behaviour of requests.post to OpenRouter: either the call itself raises
(timeout, connection failure) or an HTTP response with a status code comes
back. -/
inductive PrimaryOutcome where
  | raisesBeforeResponse (err : String)
  | httpResponse (status : Nat) (body : BodyOutcome)
deriving DecidableEq, Repr

instance exceptDecEq {ε α : Type} [DecidableEq ε] [DecidableEq α] :
    DecidableEq (Except ε α) := fun x y =>
  match x, y with
  | Except.ok a, Except.ok b =>
    if h : a = b then isTrue (by rw [h])
    else isFalse (fun he => h (Except.ok.injEq a b ▸ he))
  | Except.error a, Except.error b =>
    if h : a = b then isTrue (by rw [h])
    else isFalse (fun he => h (Except.error.injEq a b ▸ he))
  | Except.ok _, Except.error _ => isFalse (fun he => Except.noConfusion he)
  | Except.error _, Except.ok _ => isFalse (fun he => Except.noConfusion he)

/-- Behaviour of the Gemini SDK call: either client construction or
generate_content raises, or a response object comes back with
`text` = getattr(resp, "text", None) and `candidatesOutput` modelling
resp.candidates[0].output (which may raise, or be None, or be a string). -/
inductive GeminiOutcome where
  | raises (err : String)
  | resp (text : Option String) (candidatesOutput : Except String (Option String))
deriving DecidableEq, Repr

/-- The environment generate_response runs in: the two credentials, whether
the google.genai import succeeded, and the behaviour of each provider as a
function of the prompt sent to it. -/
structure ProviderEnv where
  openrouterKey : Option String
  geminiKey : Option String
  hasGenai : Bool
  primary : String → PrimaryOutcome
  gemini : String → GeminiOutcome

/-- The body of the OpenRouter try block.  `Except.error` is a raised
exception (to be caught by the enclosing except clause); `Except.ok none`
means the block ran to its end without returning (HTTP 200 whose body has
no non-empty choices list); `Except.ok (some t)` is an executed
return statement. -/
def tryOpenRouter : PrimaryOutcome → Except String (Option String)
  | PrimaryOutcome.raisesBeforeResponse e => Except.error e
  | PrimaryOutcome.httpResponse status body =>
    if status == 200 then
      match body with
      | BodyOutcome.jsonRaises e => Except.error e
      | BodyOutcome.jsonData choices =>
        match choices with
        | some (c :: _) =>
          match c with
          | ChoiceOutcome.good content => Except.ok (some (pyStrip content))
          | ChoiceOutcome.badShape e => Except.error e
        | _ => Except.ok none
    else
      Except.error ("OpenRouter returned status " ++ toString status)

/-- Python text.strip() on the extracted Gemini value: raises when the
value is None. -/
def stripOrRaise : Option String → Except String String
  | some s => Except.ok (pyStrip s)
  | none => Except.error "AttributeError: \x27NoneType\x27 object has no attribute \x27strip\x27"

/-- The body of the Gemini try block: take getattr(resp, "text", None);
if that is falsy (None or empty) take resp.candidates[0].output instead;
strip and return.  `Except.error` is a raised exception. -/
def tryGemini : GeminiOutcome → Except String String
  | GeminiOutcome.raises e => Except.error e
  | GeminiOutcome.resp text candidatesOutput =>
    (if pyTruthy text then Except.ok text else candidatesOutput).bind stripOrRaise

/-- The whole OpenRouter step of generate_response: skipped when the
credential is falsy; otherwise the try block runs and a raised exception is
caught and converted into fallthrough (`none`). -/
def openRouterStep (env : ProviderEnv) (prompt : String) : Option String :=
  if pyTruthy env.openrouterKey then
    match tryOpenRouter (env.primary prompt) with
    | Except.ok r => r
    | Except.error _ => none
  else none

/-- Result of generate_response together with whether the Gemini provider
was attempted (client constructed and generate_content issued). -/
structure GenResult where
  result : Except String String
  calledGemini : Bool
deriving DecidableEq, Repr

/-- generate_response from app.py: build the prompt, try OpenRouter when
configured, then try Gemini when the import succeeded and the credential is
truthy, then return the static unavailability string.  Raised provider
exceptions are caught at each step. -/
def generate_response (env : ProviderEnv) (user_message : String) : GenResult :=
  let prompt := build_prompt user_message
  match openRouterStep env prompt with
  | some text => { result := Except.ok text, calledGemini := false }
  | none =>
    if env.hasGenai && pyTruthy env.geminiKey then
      match tryGemini (env.gemini prompt) with
      | Except.ok t => { result := Except.ok t, calledGemini := true }
      | Except.error _ => { result := Except.ok UNAVAILABLE_MESSAGE, calledGemini := true }
    else { result := Except.ok UNAVAILABLE_MESSAGE, calledGemini := false }

/-- A JSON value as it can appear for the "message" and "chat_id" fields of
the POST /chat body.  Flask request bodies are duck-typed, so a non-string
message passes the presence check. -/
inductive JVal where
  | jstr (s : String)
  | jint (n : Int)
  | jnull
deriving DecidableEq, Repr

/-- A row of the chats table (models.py Chat): integer id, optional title,
creation timestamp (modelled as a Nat). -/
structure Chat where
  id : Nat
  title : Option String
  created_at : Nat
deriving DecidableEq, Repr

/-- A row of the messages table (models.py Message): integer id, owning
chat id, role string, content, creation timestamp. -/
structure Message where
  id : Nat
  chat_id : Nat
  role : String
  content : JVal
  created_at : Nat
deriving DecidableEq, Repr

/-- The persistent store: the two tables plus the auto-increment counters. -/
structure DBState where
  chats : List Chat
  messages : List Message
  nextChatId : Nat
  nextMsgId : Nat
deriving DecidableEq, Repr

/-- Chat.query.get(cid): primary-key lookup in the chats table. -/
def queryGetChat (st : DBState) (cid : Nat) : Option Chat :=
  st.chats.find? (fun c => c.id == cid)

/-- Order relation used by Message.created_at.asc(). -/
def msgCreatedLe (a b : Message) : Prop := a.created_at ≤ b.created_at

/-- Order relation used by Chat.created_at.desc(): newest first. -/
def chatCreatedGe (a b : Chat) : Prop := b.created_at ≤ a.created_at

instance : DecidableRel msgCreatedLe := fun a b => Nat.decLe a.created_at b.created_at

instance : DecidableRel chatCreatedGe := fun a b => Nat.decLe b.created_at a.created_at

instance : IsTotal Message msgCreatedLe :=
  ⟨fun a b => Nat.le_total a.created_at b.created_at⟩

instance : IsTrans Message msgCreatedLe :=
  ⟨fun _ _ _ h h2 => Nat.le_trans h h2⟩

instance : IsTotal Chat chatCreatedGe :=
  ⟨fun a b => (Nat.le_total b.created_at a.created_at)⟩

instance : IsTrans Chat chatCreatedGe :=
  ⟨fun _ _ _ h h2 => Nat.le_trans h2 h⟩

/-- ORDER BY created_at ASC over message rows. -/
def sortMessagesAsc (l : List Message) : List Message :=
  List.insertionSort msgCreatedLe l

/-- ORDER BY created_at DESC over chat rows. -/
def sortChatsDesc (l : List Chat) : List Chat :=
  List.insertionSort chatCreatedGe l

/-- The JSON bodies the endpoints can produce. -/
inductive RespBody where
  | errorMsg (msg : String)
  | errorDetails (msg details : String)
  | statusOk
  | chatsList (chats : List Chat)
  | messagesList (messages : List Message)
  | chatResp (chat_id : Nat) (response : String)
deriving DecidableEq, Repr

/-- An HTTP response: status code and JSON body. -/
structure HttpResponse where
  status : Nat
  body : RespBody
deriving DecidableEq, Repr

/-- GET /chats: all chats ordered by created_at descending, status 200. -/
def list_chats (st : DBState) : HttpResponse :=
  { status := 200, body := RespBody.chatsList (sortChatsDesc st.chats) }

/-- GET /chats/(chat_id): 404 when the id does not resolve, else the
messages of that chat ordered by created_at ascending, status 200. -/
def get_chat (st : DBState) (chat_id : Nat) : HttpResponse :=
  match queryGetChat st chat_id with
  | none => { status := 404, body := RespBody.errorMsg "Chat not found" }
  | some c =>
    { status := 200,
      body := RespBody.messagesList
        (sortMessagesAsc (st.messages.filter (fun m => m.chat_id == c.id))) }

/-- The parsed POST /chat body: the "message" value when the key is
present, and the "chat_id" value (restricted to the integer shape the
endpoints exercise; absent or null is `none`). -/
structure ChatRequest where
  message : Option JVal
  chat_id : Option Int
deriving DecidableEq, Repr

/-- Python user_message[:200]: slicing succeeds only on strings and raises
TypeError otherwise. -/
def pySlice200 : JVal → Except String String
  | JVal.jstr s => Except.ok (s.take 200)
  | JVal.jint _ => Except.error "TypeError: \x27int\x27 object is not subscriptable"
  | JVal.jnull => Except.error "TypeError: \x27NoneType\x27 object is not subscriptable"

/-- Python str coercion as the f-string in build_prompt applies it. -/
def pyStr : JVal → String
  | JVal.jstr s => s
  | JVal.jint n => toString n
  | JVal.jnull => "None"

/-- chat = Chat.query.get(chat_id) if chat_id else None: a falsy chat_id
(absent, null or zero) skips the lookup. -/
def resolveChat (st : DBState) (cid : Option Int) : Option Chat :=
  match cid with
  | none => none
  | some n => if n == 0 then none else st.chats.find? (fun c => (c.id : Int) == n)

/-- db.session.add(Chat(title=...)) + commit: appends a chat row with the
next auto-increment id and the commit timestamp; returns the new id. -/
def createChat (st : DBState) (title : String) (t : Nat) : DBState × Nat :=
  ({ st with
      chats := st.chats ++ [{ id := st.nextChatId, title := some title, created_at := t }],
      nextChatId := st.nextChatId + 1 },
   st.nextChatId)

/-- db.session.add(Message(...)) + commit: the content column is NOT NULL,
so committing a null content raises; otherwise a message row is appended
with the next auto-increment id. -/
def addMessage (st : DBState) (cid : Nat) (role : String) (content : JVal) (t : Nat) :
    Except String DBState :=
  match content with
  | JVal.jnull => Except.error "IntegrityError: NOT NULL constraint failed: messages.content"
  | _ => Except.ok
      { st with
        messages := st.messages ++
          [{ id := st.nextMsgId, chat_id := cid, role := role, content := content,
             created_at := t }],
        nextMsgId := st.nextMsgId + 1 }

/-- The 500 response produced by the except clause of the /chat route. -/
def internalError (e : String) : HttpResponse :=
  { status := 500, body := RespBody.errorDetails "Internal server error" e }

/-- The tail of the /chat route once a chat row with id `cid` exists:
persist the user message, call generate_response, persist the assistant
message, answer 200; any raised exception is answered with 500 and leaves
the rows committed so far in place. -/
def chatTurn (env : ProviderEnv) (st : DBState) (cid : Nat) (user_message : JVal)
    (tUser tAsst : Nat) : DBState × HttpResponse :=
  match addMessage st cid "user" user_message tUser with
  | Except.error e => (st, internalError e)
  | Except.ok st2 =>
    match (generate_response env (pyStr user_message)).result with
    | Except.error e => (st2, internalError e)
    | Except.ok ai_reply =>
      match addMessage st2 cid "assistant" (JVal.jstr ai_reply) tAsst with
      | Except.error e => (st2, internalError e)
      | Except.ok st3 =>
        (st3, { status := 200, body := RespBody.chatResp cid ai_reply })

/-- POST /chat from app.py: reject a body without the "message" key with
400; resolve or create the chat (title = user_message[:200], which raises
for a non-string message and is then answered with 500 by the except
clause); then run the chat turn.  Timestamps of the three commits are the
parameters tChat, tUser, tAsst. -/
def chat (env : ProviderEnv) (st : DBState) (data : ChatRequest)
    (tChat tUser tAsst : Nat) : DBState × HttpResponse :=
  match data.message with
  | none => (st, { status := 400, body := RespBody.errorMsg "Missing \x27message\x27" })
  | some user_message =>
    match resolveChat st data.chat_id with
    | some c => chatTurn env st c.id user_message tUser tAsst
    | none =>
      match pySlice200 user_message with
      | Except.error e => (st, internalError e)
      | Except.ok title =>
        let created := createChat st title tChat
        chatTurn env created.1 created.2 user_message tUser tAsst

/-- An environment in which neither provider credential is configured and
the google.genai import failed. -/
def envNoProviders : ProviderEnv :=
  { openrouterKey := none, geminiKey := none, hasGenai := false,
    primary := fun _ => PrimaryOutcome.raisesBeforeResponse "unreachable",
    gemini := fun _ => GeminiOutcome.raises "unreachable" }

/-- An environment in which OpenRouter is configured and answers HTTP 200
with one well-formed choice. -/
def envPrimarySuccess : ProviderEnv :=
  { envNoProviders with
    openrouterKey := some "k",
    primary := fun _ => PrimaryOutcome.httpResponse 200
      (BodyOutcome.jsonData (some [ChoiceOutcome.good "  hello "])) }

/-- An environment in which OpenRouter is unconfigured and Gemini answers
with a truthy text attribute. -/
def envGeminiText : ProviderEnv :=
  { envNoProviders with
    geminiKey := some "g", hasGenai := true,
    gemini := fun _ => GeminiOutcome.resp (some " yo ") (Except.error "e") }

/-- An environment in which OpenRouter answers HTTP 500 and Gemini answers
with a None text attribute but a candidate output string. -/
def envGeminiCandidates : ProviderEnv :=
  { envNoProviders with
    openrouterKey := some "k",
    primary := fun _ => PrimaryOutcome.httpResponse 500 (BodyOutcome.jsonRaises "boom"),
    geminiKey := some "g", hasGenai := true,
    gemini := fun _ => GeminiOutcome.resp none (Except.ok (some " ok ")) }

/-- The store right after db.create_all() on a fresh database. -/
def dbEmpty : DBState :=
  { chats := [], messages := [], nextChatId := 1, nextMsgId := 1 }

/-- A small populated store whose chat 1 has two messages stored out of
creation order. -/
def dbSeed : DBState :=
  { chats := [{ id := 1, title := some "t", created_at := 5 }],
    messages := [
      { id := 1, chat_id := 1, role := "user", content := JVal.jstr "b", created_at := 9 },
      { id := 2, chat_id := 1, role := "assistant", content := JVal.jstr "a", created_at := 7 },
      { id := 3, chat_id := 2, role := "user", content := JVal.jstr "c", created_at := 1 }],
    nextChatId := 3, nextMsgId := 4 }

set_option maxRecDepth 8000

/-- Helper: a falsy credential, a raising request, or a non-200 status all
make the OpenRouter step fall through. -/
theorem openRouterStep_eq_none_of_fail (env : ProviderEnv) (prompt : String)
    (hfail : pyTruthy env.openrouterKey = false ∨
      (∃ e, env.primary prompt = PrimaryOutcome.raisesBeforeResponse e) ∨
      (∃ s b, env.primary prompt = PrimaryOutcome.httpResponse s b ∧ s ≠ 200)) :
    openRouterStep env prompt = none := by
  rcases hfail with h | ⟨e, h⟩ | ⟨s, b, h, hs⟩
  · simp [openRouterStep, h]
  · simp [openRouterStep, tryOpenRouter, h]
  · have hs2 : (s == 200) = false := by simpa using hs
    simp [openRouterStep, tryOpenRouter, h, hs2]

/-- Claim C1: generate_response never raises to its caller: for every user
message and every behaviour of the two providers (success, non-200 status,
timeout, network failure, malformed body) its result is a string, every
provider error having been converted into fallthrough. -/
theorem generate_response_never_raises (env : ProviderEnv) (user_message : String) :
    ∃ s : String, (generate_response env user_message).result = Except.ok s := by
  simp only [generate_response]
  cases h : openRouterStep env (build_prompt user_message) with
  | some text => exact ⟨text, rfl⟩
  | none =>
    cases hg : env.hasGenai && pyTruthy env.geminiKey with
    | false => exact ⟨UNAVAILABLE_MESSAGE, by simp [hg]⟩
    | true =>
      cases ht : tryGemini (env.gemini (build_prompt user_message)) with
      | ok t => exact ⟨t, by simp [hg, ht]⟩
      | error e => exact ⟨UNAVAILABLE_MESSAGE, by simp [hg, ht]⟩

/-- Claim C2: with the OpenRouter credential configured and the provider
answering HTTP 200 with a non-empty choices list, generate_response
returns exactly the stripped text of the first choice and never attempts
the Gemini provider. -/
theorem generate_response_primary_success
    (env : ProviderEnv) (user_message content : String) (rest : List ChoiceOutcome)
    (hkey : pyTruthy env.openrouterKey = true)
    (hprimary : env.primary (build_prompt user_message) =
      PrimaryOutcome.httpResponse 200
        (BodyOutcome.jsonData (some (ChoiceOutcome.good content :: rest)))) :
    generate_response env user_message =
      { result := Except.ok (pyStrip content), calledGemini := false } := by
  have hstep : openRouterStep env (build_prompt user_message) = some (pyStrip content) := by
    simp [openRouterStep, hkey, hprimary, tryOpenRouter]
  simp [generate_response, hstep]

/-- Witness for C2 at a concrete environment and message. -/
theorem generate_response_primary_success_witness :
    pyTruthy envPrimarySuccess.openrouterKey = true ∧
    generate_response envPrimarySuccess "hi" =
      { result := Except.ok "hello", calledGemini := false } :=
  ⟨rfl, generate_response_primary_success envPrimarySuccess "hi" "  hello " [] rfl rfl⟩

/-- Claim C3: when the OpenRouter step fails (unconfigured credential,
timeout or network failure, or a non-200 status) and Gemini is configured,
importable and succeeds, generate_response returns the Gemini text: the
stripped text attribute when it is truthy, else the stripped first
candidate output. -/
theorem generate_response_secondary_success
    (env : ProviderEnv) (user_message : String)
    (hfail : pyTruthy env.openrouterKey = false ∨
      (∃ e, env.primary (build_prompt user_message) = PrimaryOutcome.raisesBeforeResponse e) ∨
      (∃ s b, env.primary (build_prompt user_message) = PrimaryOutcome.httpResponse s b ∧
        s ≠ 200))
    (hgen : env.hasGenai = true) (hkey : pyTruthy env.geminiKey = true) :
    (∀ t cand, env.gemini (build_prompt user_message) = GeminiOutcome.resp (some t) cand →
      t ≠ "" → generate_response env user_message =
        { result := Except.ok (pyStrip t), calledGemini := true }) ∧
    (∀ text c, env.gemini (build_prompt user_message) =
        GeminiOutcome.resp text (Except.ok (some c)) →
      pyTruthy text = false → generate_response env user_message =
        { result := Except.ok (pyStrip c), calledGemini := true }) := by
  have hstep := openRouterStep_eq_none_of_fail env (build_prompt user_message) hfail
  constructor
  · intro t cand hresp ht
    have ht2 : (t == "") = false := by simpa using ht
    have htry : tryGemini (env.gemini (build_prompt user_message)) =
        Except.ok (pyStrip t) := by
      simp [tryGemini, hresp, pyTruthy, ht2, stripOrRaise, Except.bind]
    simp [generate_response, hstep, hgen, hkey, htry]
  · intro text c hresp htext
    have htry : tryGemini (env.gemini (build_prompt user_message)) =
        Except.ok (pyStrip c) := by
      simp [tryGemini, hresp, htext, stripOrRaise, Except.bind]
    simp [generate_response, hstep, hgen, hkey, htry]

/-- Witness for C3: both Gemini extraction paths at concrete environments. -/
theorem generate_response_secondary_success_witness :
    generate_response envGeminiText "q" =
      { result := Except.ok "yo", calledGemini := true } ∧
    generate_response envGeminiCandidates "q" =
      { result := Except.ok "ok", calledGemini := true } :=
  ⟨(generate_response_secondary_success envGeminiText "q" (Or.inl rfl) rfl rfl).1
      " yo " (Except.error "e") rfl (by decide),
   (generate_response_secondary_success envGeminiCandidates "q"
      (Or.inr (Or.inr ⟨500, BodyOutcome.jsonRaises "boom", rfl, by decide⟩)) rfl rfl).2
      none " ok " rfl rfl⟩

/-- Claim C4: when no provider is available (credential falsy or import
failed) or every available provider attempt failed, generate_response
returns exactly the fixed unavailability string. -/
theorem generate_response_all_unavailable
    (env : ProviderEnv) (user_message : String)
    (hprimary : pyTruthy env.openrouterKey = false ∨
      ∀ t, tryOpenRouter (env.primary (build_prompt user_message)) ≠ Except.ok (some t))
    (hsecondary : env.hasGenai = false ∨ pyTruthy env.geminiKey = false ∨
      ∀ t, tryGemini (env.gemini (build_prompt user_message)) ≠ Except.ok t) :
    (generate_response env user_message).result =
      Except.ok "All AI providers are currently unavailable. Please try again later." := by
  have hstep : openRouterStep env (build_prompt user_message) = none := by
    rcases hprimary with h | h
    · simp [openRouterStep, h]
    · unfold openRouterStep
      cases htry : tryOpenRouter (env.primary (build_prompt user_message)) with
      | ok r =>
        cases r with
        | some t => exact absurd htry (h t)
        | none => simp [htry]
      | error e => simp [htry]
  have hfinal : UNAVAILABLE_MESSAGE =
      "All AI providers are currently unavailable. Please try again later." := rfl
  rcases hsecondary with h | h | h
  · simp [generate_response, hstep, h, hfinal]
  · simp [generate_response, hstep, h, hfinal]
  · simp only [generate_response, hstep]
    cases hg : env.hasGenai && pyTruthy env.geminiKey with
    | false => simp [hg, hfinal]
    | true =>
      cases ht : tryGemini (env.gemini (build_prompt user_message)) with
      | ok t => exact absurd ht (h t)
      | error e => simp [hg, ht, hfinal]

/-- Witness for C4 at the unconfigured environment. -/
theorem generate_response_all_unavailable_witness :
    (generate_response envNoProviders "x").result =
      Except.ok "All AI providers are currently unavailable. Please try again later." :=
  generate_response_all_unavailable envNoProviders "x" (Or.inl rfl) (Or.inl rfl)

/-- Claim C5: a POST /chat body without the "message" key is answered 400
with the missing-message error, and the store (chats and messages alike)
is returned unchanged: nothing was persisted. -/
theorem chat_missing_message (env : ProviderEnv) (st : DBState) (cid : Option Int)
    (tChat tUser tAsst : Nat) :
    chat env st { message := none, chat_id := cid } tChat tUser tAsst =
      (st, { status := 400, body := RespBody.errorMsg "Missing \x27message\x27" }) := rfl

/-- Claim C6: a successful POST /chat that starts a new conversation (the
chat_id is absent or does not resolve) creates exactly one chat row titled
with the first 200 characters of the message, and exactly two message rows
in it: the user message first, then the generated assistant reply. -/
theorem chat_new_conversation
    (env : ProviderEnv) (st : DBState) (s : String) (cid : Option Int)
    (tChat tUser tAsst : Nat) (reply : String)
    (hresolve : resolveChat st cid = none)
    (hreply : (generate_response env s).result = Except.ok reply) :
    chat env st { message := some (JVal.jstr s), chat_id := cid } tChat tUser tAsst =
      ({ chats := st.chats ++
           [{ id := st.nextChatId, title := some (s.take 200), created_at := tChat }],
         messages := st.messages ++
           [{ id := st.nextMsgId, chat_id := st.nextChatId, role := "user",
              content := JVal.jstr s, created_at := tUser },
            { id := st.nextMsgId + 1, chat_id := st.nextChatId, role := "assistant",
              content := JVal.jstr reply, created_at := tAsst }],
         nextChatId := st.nextChatId + 1,
         nextMsgId := st.nextMsgId + 2 },
       { status := 200, body := RespBody.chatResp st.nextChatId reply }) := by
  simp [chat, hresolve, pySlice200, createChat, chatTurn, addMessage, pyStr, hreply]

/-- Witness for C6: a new conversation on the empty store with no provider
configured. -/
theorem chat_new_conversation_witness :
    chat envNoProviders dbEmpty
        { message := some (JVal.jstr "hello"), chat_id := none } 0 1 2 =
      ({ chats := [{ id := 1, title := some "hello", created_at := 0 }],
         messages := [
           { id := 1, chat_id := 1, role := "user", content := JVal.jstr "hello",
             created_at := 1 },
           { id := 2, chat_id := 1, role := "assistant",
             content := JVal.jstr UNAVAILABLE_MESSAGE, created_at := 2 }],
         nextChatId := 2, nextMsgId := 3 },
       { status := 200, body := RespBody.chatResp 1 UNAVAILABLE_MESSAGE }) :=
  chat_new_conversation envNoProviders dbEmpty "hello" none 0 1 2 UNAVAILABLE_MESSAGE rfl rfl

/-- Claim C7: build_prompt is deterministic and its output starts with the
fixed system-instructions block and ends with the user message. -/
theorem build_prompt_spec (s : String) :
    (∀ t : String, t = s → build_prompt t = build_prompt s) ∧
    (∃ rest : String, build_prompt s = SYSTEM_INSTRUCTIONS ++ rest) ∧
    (∃ pre : String, build_prompt s = pre ++ s) :=
  ⟨fun _ ht => by rw [ht],
   ⟨"\n\nUser:\n" ++ s, by simp [build_prompt, String.append_assoc]⟩,
   ⟨SYSTEM_INSTRUCTIONS ++ "\n\nUser:\n", rfl⟩⟩

/-- Witness for C7 at a concrete message. -/
theorem build_prompt_spec_witness :
    build_prompt "abc" = build_prompt "abc" ∧
    (∃ rest : String, build_prompt "abc" = SYSTEM_INSTRUCTIONS ++ rest) ∧
    (∃ pre : String, build_prompt "abc" = pre ++ "abc") :=
  ⟨(build_prompt_spec "abc").1 "abc" rfl,
   (build_prompt_spec "abc").2.1,
   (build_prompt_spec "abc").2.2⟩

/-- Claim C8: GET /chats/(id) answers 200 with exactly the messages of the
resolved chat ordered non-decreasing by creation timestamp, and 404 with
the chat-not-found error when the id does not resolve. -/
theorem get_chat_spec (st : DBState) (chat_id : Nat) :
    (∀ c, queryGetChat st chat_id = some c →
      get_chat st chat_id =
        { status := 200,
          body := RespBody.messagesList
            (sortMessagesAsc (st.messages.filter (fun m => m.chat_id == c.id))) } ∧
      List.Perm (sortMessagesAsc (st.messages.filter (fun m => m.chat_id == c.id)))
        (st.messages.filter (fun m => m.chat_id == c.id)) ∧
      List.Sorted msgCreatedLe
        (sortMessagesAsc (st.messages.filter (fun m => m.chat_id == c.id)))) ∧
    (queryGetChat st chat_id = none →
      get_chat st chat_id = { status := 404, body := RespBody.errorMsg "Chat not found" }) := by
  constructor
  · intro c hc
    exact ⟨by simp [get_chat, hc],
      List.perm_insertionSort msgCreatedLe _,
      List.sorted_insertionSort msgCreatedLe _⟩
  · intro h
    simp [get_chat, h]

/-- Witness for C8: a resolving and a non-resolving id on the seeded store. -/
theorem get_chat_spec_witness :
    get_chat dbSeed 1 =
      { status := 200, body := RespBody.messagesList [
          { id := 2, chat_id := 1, role := "assistant", content := JVal.jstr "a",
            created_at := 7 },
          { id := 1, chat_id := 1, role := "user", content := JVal.jstr "b",
            created_at := 9 }] } ∧
    get_chat dbSeed 9 = { status := 404, body := RespBody.errorMsg "Chat not found" } :=
  ⟨((get_chat_spec dbSeed 1).1 { id := 1, title := some "t", created_at := 5 } rfl).1,
   (get_chat_spec dbSeed 9).2 rfl⟩

/-- Claim C9: GET /chats answers 200 with the full list of chat rows
ordered non-increasing by creation timestamp (newest first). -/
theorem list_chats_spec (st : DBState) :
    list_chats st = { status := 200, body := RespBody.chatsList (sortChatsDesc st.chats) } ∧
    List.Perm (sortChatsDesc st.chats) st.chats ∧
    List.Sorted chatCreatedGe (sortChatsDesc st.chats) :=
  ⟨rfl, List.perm_insertionSort chatCreatedGe _, List.sorted_insertionSort chatCreatedGe _⟩

/-- Claim C10: POST /chat validation only checks key presence: an integer
"message" with no resolvable chat_id reaches the title slice, which raises
TypeError, so the route answers 500 with the internal-server-error body
(not 400) and the store is returned unchanged: nothing was persisted. -/
theorem chat_nonstring_message
    (env : ProviderEnv) (st : DBState) (n : Int) (cid : Option Int)
    (tChat tUser tAsst : Nat)
    (hresolve : resolveChat st cid = none) :
    chat env st { message := some (JVal.jint n), chat_id := cid } tChat tUser tAsst =
      (st, { status := 500,
             body := RespBody.errorDetails "Internal server error"
               "TypeError: \x27int\x27 object is not subscriptable" }) := by
  simp [chat, hresolve, pySlice200, internalError]

/-- Witness for C10: an integer message on the empty store. -/
theorem chat_nonstring_message_witness :
    chat envNoProviders dbEmpty
        { message := some (JVal.jint 7), chat_id := none } 0 1 2 =
      (dbEmpty, { status := 500,
                  body := RespBody.errorDetails "Internal server error"
                    "TypeError: \x27int\x27 object is not subscriptable" }) :=
  chat_nonstring_message envNoProviders dbEmpty 7 none 0 1 2 rfl
